import Mathlib

/-
Verification of the spec of `verification/verify_stickman.py` against the source.

The script drives a headless browser via Playwright:

  async def run():
      async with async_playwright() as p:
          browser = await p.chromium.launch(headless=True)
          page = await browser.new_page()
          try:
              await page.goto("http://localhost:5173")
              await page.wait_for_selector("canvas")
              await asyncio.sleep(2)
              await page.screenshot(path="verification/screenshot.png")
              print("Screenshot taken")
          except Exception as e:
              print(f"Error: ...")          -- the message of e after "Error: "
          finally:
              await browser.close()

  if __name__ == "__main__":
      asyncio.run(run())

The embedding below models one execution of `run` as a function of the
environment's behaviour: each driver operation either succeeds or raises a
fault. The result records the sequence of driver operations attempted
(in order), the lines printed, and the exception (if any) escaping `run`.
-/

namespace VerifyStickman

/-- A fault raised by a driver operation, carrying its human-readable message. -/
structure Fault where
  msg : String
deriving DecidableEq, Repr

/-- One driver / effect operation attempted by the script, with the arguments the
source passes to it. `mkdir` is a directory-creation operation: the event
exists in the vocabulary so that its absence from every trace is expressible;
the script never issues it. `exitPlaywright` is the exit of the
`async with async_playwright()` context manager. -/
inductive Event where
  | launch (headless : Bool)
  | newPage
  | goto (url : String)
  | waitForSelector (selector : String) (timeoutMs : Option Nat)
  | sleep (seconds : Nat)
  | screenshot (path : String)
  | mkdir (path : String)
  | close
  | exitPlaywright
deriving DecidableEq, Repr

/-- The environment's behaviour for one execution: for each driver operation,
`none` means the operation succeeds if attempted, `some f` means it raises
fault `f` when attempted. -/
structure Env where
  launch : Option Fault
  newPage : Option Fault
  goto : Option Fault
  waitForSelector : Option Fault
  sleep : Option Fault
  screenshot : Option Fault
  close : Option Fault
deriving DecidableEq, Repr

/-- Modelled from the spec (section 7), for comparison only: the error taxonomy
the spec says a failure Outcome carries. The source defines no such type;
it is declared here solely to state, for claim C5, what `run` would have to
return, and to compare that with what the source actually returns. -/
inductive ErrorKind where
  | LaunchFailure
  | NavigationFailure
  | ReadinessTimeout
  | CaptureFailure
  | UnexpectedFailure
deriving DecidableEq, Repr

/-- Modelled from the spec (section 4.1), for comparison only: the tagged
Outcome value the spec says `run` returns — a success flag with the resolved
output path and elapsed time on success, or an error kind and message on
failure. The source never constructs such a value. -/
structure SpecOutcome where
  success : Bool
  resolvedOutputPath : Option String
  elapsedMs : Option Nat
  errKind : Option ErrorKind
  message : Option String
deriving DecidableEq, Repr

/-- The observable result of one execution of `run`: the driver operations
attempted in order, the lines printed to standard output, the value returned
by the function (the source has no return statement on any path, so Python
returns None; `retVal` records whether an Outcome value is returned), and
the exception escaping `run` to its caller (`none` when `run` returns
normally). -/
structure RunResult where
  trace : List Event
  prints : List String
  retVal : Option SpecOutcome
  raised : Option Fault
deriving DecidableEq, Repr

/-- The URL the source navigates to: hard-coded `"http://localhost:5173"`. -/
def targetUrl : String := "http://localhost:5173"

/-- The readiness selector the source waits for: hard-coded `"canvas"`. -/
def readinessSelector : String := "canvas"

/-- The timeout argument the source passes to `wait_for_selector`: it passes
none, so the driver's own default applies. -/
def readinessTimeoutArg : Option Nat := none

/-- The settle delay the source sleeps after readiness: `asyncio.sleep(2)`,
i.e. 2 seconds. -/
def settleDelaySeconds : Nat := 2

/-- The settle delay in milliseconds. -/
def settleDelayMs : Nat := settleDelaySeconds * 1000

/-- The screenshot destination the source passes: hard-coded
`"verification/screenshot.png"`. -/
def outputPath : String := "verification/screenshot.png"

/-- The headless flag the source passes to `chromium.launch`: hard-coded True. -/
def headlessFlag : Bool := true

/-- Playwright's documented default timeout in milliseconds for
`wait_for_selector` when the call passes no timeout argument. This is
behaviour of the external driver, documented by Playwright; the repository
source sets no timeout anywhere. -/
def playwrightDefaultTimeoutMs : Nat := 30000

/-- The timeout in effect for a `wait_for_selector` call: the argument passed,
or the driver's default when no argument is passed. -/
def effectiveWaitTimeoutMs (t : Option Nat) : Nat := t.getD playwrightDefaultTimeoutMs

/-- The first fault raised inside the try block (among navigation, readiness
wait, settle sleep, screenshot), if any; this is the exception `e` bound by
the `except` clause. -/
def caughtFault (env : Env) : Option Fault :=
  match env.goto with
  | some f => some f
  | none =>
    match env.waitForSelector with
    | some f => some f
    | none =>
      match env.sleep with
      | some f => some f
      | none => env.screenshot

/-- The driver operations attempted inside the try block, in order: navigation
first; each later operation is attempted only when every earlier one
succeeded. -/
def tryEvents (env : Env) : List Event :=
  Event.goto targetUrl ::
    (if env.goto = none then
      Event.waitForSelector readinessSelector readinessTimeoutArg ::
        (if env.waitForSelector = none then
          Event.sleep settleDelaySeconds ::
            (if env.sleep = none then [Event.screenshot outputPath] else [])
        else [])
    else [])

/-- The lines printed by the try/except: the success line when every operation
in the try block succeeded, otherwise the single diagnostic line built from
the caught fault's message. -/
def tryPrints (env : Env) : List String :=
  match caughtFault env with
  | some f => ["Error: " ++ f.msg]
  | none => ["Screenshot taken"]

/-- One execution of `run`, mirroring the source's control flow.
`launch` and `new_page` sit outside the try block: a fault there skips the
try/except/finally entirely (so `browser.close()` is never reached) and
escapes through the context-manager exit. Otherwise the try block runs,
any fault in it is caught and printed, and the `finally` attempts
`browser.close()`, whose own fault (if any) escapes `run`. -/
def run (env : Env) : RunResult :=
  match env.launch with
  | some f => ⟨[Event.launch headlessFlag, Event.exitPlaywright], [], none, some f⟩
  | none =>
    match env.newPage with
    | some f =>
      ⟨[Event.launch headlessFlag, Event.newPage, Event.exitPlaywright], [], none, some f⟩
    | none =>
      ⟨[Event.launch headlessFlag, Event.newPage] ++ tryEvents env
          ++ [Event.close, Event.exitPlaywright],
        tryPrints env, none, env.close⟩

/-- The exception escaping `run`, described directly: the launch fault if the
launch raised, else the page-creation fault if that raised, else whatever
the final `browser.close()` raised. Faults caught by the except clause never
appear here. -/
def escapedFault (env : Env) : Option Fault :=
  match env.launch with
  | some f => some f
  | none =>
    match env.newPage with
    | some f => some f
    | none => env.close

/-- Process exit code of the CLI invocation `asyncio.run(run())`: 0 when `run`
returns normally, 1 (Python's unhandled-exception exit code) when an
exception escapes. -/
def mainExitCode (env : Env) : Nat :=
  match (run env).raised with
  | none => 0
  | some _ => 1

/-- Position of each operation in the source's program order, used to state
that every trace is strictly ordered. -/
def stepIndex : Event → Nat
  | Event.launch _ => 0
  | Event.newPage => 1
  | Event.goto _ => 2
  | Event.waitForSelector _ _ => 3
  | Event.sleep _ => 4
  | Event.screenshot _ => 5
  | Event.mkdir _ => 6
  | Event.close => 7
  | Event.exitPlaywright => 8

/-- Whether an event is a browser launch (session acquisition). -/
def isLaunch : Event → Bool
  | Event.launch _ => true
  | _ => false

/-- Whether an event is a directory-creation operation. -/
def isMkdir : Event → Bool
  | Event.mkdir _ => true
  | _ => false

/-- A filesystem abstraction for the artifact path: for each path, how many
times a file has been written there (0 = no file; a write replaces any
existing file and bumps the count, so overwriting is visible). -/
def Fs : Type := String → Nat

/-- A (over)write of the file at path `p`: last write wins, count bumped. -/
def writeFile (fs : Fs) (p : String) : Fs :=
  fun q => if q = p then fs p + 1 else fs q

/-- Effect of one driver operation on the filesystem: the driver's screenshot
call persists the capture at its path (overwriting any existing file); no
other operation touches the filesystem. -/
def applyEvent (fs : Fs) : Event → Fs
  | Event.screenshot p => writeFile fs p
  | _ => fs

/-- The filesystem after one execution of `run` from filesystem `fs`. -/
def runFs (env : Env) (fs : Fs) : Fs :=
  (run env).trace.foldl applyEvent fs

/-- The environment where every driver operation succeeds: the application is
up, serves a canvas in time, and the capture and teardown succeed. -/
def envAllOk : Env := ⟨none, none, none, none, none, none, none⟩

/-- The environment where the browser fails to launch. -/
def envLaunchFail : Env :=
  ⟨some ⟨"browser launch failed"⟩, none, none, none, none, none, none⟩

/-- The environment where the launch succeeds but page creation fails. -/
def envNewPageFail : Env :=
  ⟨none, some ⟨"new_page failed"⟩, none, none, none, none, none⟩

/-- The environment where navigation fails (target unreachable). -/
def envGotoFail : Env :=
  ⟨none, none, some ⟨"net::ERR_CONNECTION_REFUSED"⟩, none, none, none, none⟩

/-- The environment where the readiness selector never matches and the wait
raises the driver's timeout fault after its default 30000 ms. -/
def envWaitTimeout : Env :=
  ⟨none, none, none, some ⟨"Timeout 30000ms exceeded"⟩, none, none, none⟩

/-- The environment where the screenshot capture fails. -/
def envCaptureFail : Env :=
  ⟨none, none, none, none, none, some ⟨"screenshot write failed"⟩, none⟩

/-- The full program-order sequence of operations a run can attempt, in source
order. Every trace is drawn from these events. -/
def canonicalEvents : List Event :=
  [Event.launch headlessFlag, Event.newPage, Event.goto targetUrl,
    Event.waitForSelector readinessSelector readinessTimeoutArg,
    Event.sleep settleDelaySeconds, Event.screenshot outputPath,
    Event.close, Event.exitPlaywright]

lemma trace_cases (env : Env) :
    (run env).trace = [Event.launch headlessFlag, Event.exitPlaywright] ∨
    (run env).trace = [Event.launch headlessFlag, Event.newPage, Event.exitPlaywright] ∨
    (run env).trace = [Event.launch headlessFlag, Event.newPage, Event.goto targetUrl,
      Event.close, Event.exitPlaywright] ∨
    (run env).trace = [Event.launch headlessFlag, Event.newPage, Event.goto targetUrl,
      Event.waitForSelector readinessSelector readinessTimeoutArg, Event.close,
      Event.exitPlaywright] ∨
    (run env).trace = [Event.launch headlessFlag, Event.newPage, Event.goto targetUrl,
      Event.waitForSelector readinessSelector readinessTimeoutArg,
      Event.sleep settleDelaySeconds, Event.close, Event.exitPlaywright] ∨
    (run env).trace = canonicalEvents := by
  obtain ⟨l, np, g, w, s, sc, c⟩ := env
  cases l <;> cases np <;> cases g <;> cases w <;> cases s <;>
    first
      | exact Or.inl rfl
      | exact Or.inr (Or.inl rfl)
      | exact Or.inr (Or.inr (Or.inl rfl))
      | exact Or.inr (Or.inr (Or.inr (Or.inl rfl)))
      | exact Or.inr (Or.inr (Or.inr (Or.inr (Or.inl rfl))))
      | exact Or.inr (Or.inr (Or.inr (Or.inr (Or.inr rfl))))

lemma mem_canonical (env : Env) : ∀ e ∈ (run env).trace, e ∈ canonicalEvents := by
  rcases trace_cases env with h | h | h | h | h | h <;> rw [h] <;> decide

lemma trace_chain (env : Env) :
    List.Chain' (fun a b => stepIndex a < stepIndex b) (run env).trace := by
  rcases trace_cases env with h | h | h | h | h | h <;> rw [h] <;>
    simp [canonicalEvents, List.chain'_cons, stepIndex]

lemma screenshot_requires (env : Env) :
    Event.screenshot outputPath ∈ (run env).trace →
      env.goto = none ∧ env.waitForSelector = none ∧ env.sleep = none := by
  obtain ⟨l, np, g, w, s, sc, c⟩ := env
  cases l <;> cases np <;> cases g <;> cases w <;> cases s <;>
    first
      | exact fun _ => ⟨rfl, rfl, rfl⟩
      | (intro h; simp [run, tryEvents, readinessTimeoutArg] at h)

lemma success_trace (env : Env) (h1 : escapedFault env = none)
    (h2 : caughtFault env = none) : (run env).trace = canonicalEvents := by
  obtain ⟨l, np, g, w, s, sc, c⟩ := env
  cases l <;> cases np <;> cases g <;> cases w <;> cases s <;> cases sc <;> cases c <;>
    first
      | rfl
      | exact Option.noConfusion h1
      | exact Option.noConfusion h2

lemma error_ne_success (m : String) : "Error: " ++ m ≠ "Screenshot taken" := by
  intro h
  have h1 : ("Error: " ++ m).data.head? = some 'E' := rfl
  rw [h] at h1
  exact absurd h1 (by decide)

/-- C1 counterexample: when the launch succeeds (a Session is acquired) but
page creation then fails, `run` returns without ever calling
`browser.close()` — the guaranteed-cleanup block does not cover this exit
path, so the claim that the Session is released on every exit path fails. -/
theorem c1_session_release_counterexample :
    envNewPageFail.launch = none ∧
    Event.launch headlessFlag ∈ (run envNewPageFail).trace ∧
    Event.close ∉ (run envNewPageFail).trace := by
  refine ⟨rfl, by decide, ?_⟩
  intro h
  simp [run, envNewPageFail] at h

/-- C1 (amended): at most one Session is ever acquired during a run, and
`browser.close()` is invoked before `run` returns on every exit path that
reaches the guarded block (success, navigation failure, readiness timeout,
capture failure); but when page creation fails after a successful launch,
`run` exits without invoking `browser.close()`. -/
theorem c1_session_release (env : Env) :
    (run env).trace.countP isLaunch ≤ 1 ∧
    (env.launch = none → env.newPage = none → Event.close ∈ (run env).trace) ∧
    (env.newPage ≠ none → Event.close ∉ (run env).trace) := by
  obtain ⟨l, np, g, w, s, sc, c⟩ := env
  refine ⟨?_, ?_, ?_⟩
  · cases l <;> cases np <;> cases g <;> cases w <;> cases s <;>
      simp [run, tryEvents, readinessTimeoutArg, isLaunch]
  · intro hl hnp
    replace hl : l = none := hl
    replace hnp : np = none := hnp
    subst hl hnp
    cases g <;> cases w <;> cases s <;>
      simp [run, tryEvents, readinessTimeoutArg]
  · intro hnp h
    cases l with
    | some f => simp [run] at h
    | none =>
      cases np with
      | none => exact hnp rfl
      | some f => simp [run] at h

/-- C1 witness: at a run where everything succeeds, at most one launch occurs
and the browser is closed; at the page-creation-failure run, it is not. -/
theorem c1_session_release_witness :
    ((run envAllOk).trace.countP isLaunch ≤ 1 ∧ Event.close ∈ (run envAllOk).trace) ∧
    Event.close ∉ (run envNewPageFail).trace :=
  ⟨⟨(c1_session_release envAllOk).1, (c1_session_release envAllOk).2.1 rfl rfl⟩,
    (c1_session_release envNewPageFail).2.2 (fun h => Option.noConfusion h)⟩

/-- C2 counterexample: a browser-launch fault is raised outside the try block,
so it escapes `run` as an unhandled exception — contradicting the claim
that every fault (including launch failure) is caught within `run`. -/
theorem c2_propagation_counterexample :
    (run envLaunchFail).raised = some ⟨"browser launch failed"⟩ := rfl

/-- C2 (amended): faults raised by navigation, the readiness wait, the settle
sleep, and the screenshot capture are caught inside `run`; the exception
escaping `run` is exactly the launch fault, or else the page-creation
fault, or else whatever the final `browser.close()` raises — so `run`
raises no exception precisely when those three operations succeed. -/
theorem c2_propagation (env : Env) : (run env).raised = escapedFault env := by
  obtain ⟨l, np, g, w, s, sc, c⟩ := env
  cases l <;> cases np <;> rfl

/-- C3 counterexample: on a navigation failure the diagnostic line is printed
but the exception is swallowed, so the CLI process exits with code 0 —
contradicting the claim that every failure exits non-zero. -/
theorem c3_exit_code_counterexample :
    mainExitCode envGotoFail = 0 ∧
    (run envGotoFail).prints = ["Error: " ++ "net::ERR_CONNECTION_REFUSED"] :=
  ⟨rfl, rfl⟩

/-- C3 (amended): the CLI process exits with code 0 exactly when the launch,
the page creation, and the final browser close all succeed — regardless of
whether the verification itself succeeded; navigation failures, readiness
timeouts and capture failures still exit 0, and a non-zero exit occurs only
when launch, page creation, or the close raises. -/
theorem c3_exit_code (env : Env) :
    mainExitCode env = 0 ↔
      env.launch = none ∧ env.newPage = none ∧ env.close = none := by
  obtain ⟨l, np, g, w, s, sc, c⟩ := env
  cases l <;> cases np <;> cases c <;> simp [mainExitCode, run]

/-- C4: driver operations occur strictly in program order (launch, page
creation, navigate, wait-for-readiness, settle, capture, close, context
exit); the capture is attempted only when navigation, the readiness wait
and the settle sleep all succeeded, so no capture occurs on a
navigation-failure or readiness-timeout path; and on a fully successful
run the trace is exactly the canonical sequence ending in the release. -/
theorem c4_ordering (env : Env) :
    List.Chain' (fun a b => stepIndex a < stepIndex b) (run env).trace ∧
    (Event.screenshot outputPath ∈ (run env).trace →
      env.goto = none ∧ env.waitForSelector = none ∧ env.sleep = none) ∧
    (escapedFault env = none → caughtFault env = none →
      (run env).trace = canonicalEvents) :=
  ⟨trace_chain env, screenshot_requires env, fun h1 h2 => success_trace env h1 h2⟩

/-- C4 witness: at the all-success run the trace is strictly ordered, the
capture preconditions hold, and the trace is the canonical sequence. -/
theorem c4_ordering_witness :
    List.Chain' (fun a b => stepIndex a < stepIndex b) (run envAllOk).trace ∧
    (envAllOk.goto = none ∧ envAllOk.waitForSelector = none ∧ envAllOk.sleep = none) ∧
    (run envAllOk).trace = canonicalEvents :=
  ⟨(c4_ordering envAllOk).1,
    (c4_ordering envAllOk).2.1 (by rw [success_trace envAllOk rfl rfl]; decide),
    (c4_ordering envAllOk).2.2 rfl rfl⟩

/-- C5 counterexample: at the all-success run, `run` returns no value at all
(the source has no return statement, so Python returns None — no Outcome
carrying the resolved output path and elapsed time), and its inputs are not
a configuration: the URL, selector, timeout argument, settle delay, output
path and headless flag in the trace are all hard-coded constants. -/
theorem c5_contract_counterexample :
    (run envAllOk).retVal = none ∧
    (run envAllOk).prints = ["Screenshot taken"] ∧
    (run envAllOk).trace =
      [Event.launch true, Event.newPage, Event.goto "http://localhost:5173",
        Event.waitForSelector "canvas" none, Event.sleep 2,
        Event.screenshot "verification/screenshot.png", Event.close,
        Event.exitPlaywright] :=
  ⟨rfl, rfl, rfl⟩

/-- C5 (amended): `run` accepts no configuration and returns no Outcome value:
on every execution the returned value is None, every driver call uses the
hard-coded constants (URL http://localhost:5173, selector canvas, no
timeout argument, 2-second settle, output path verification/screenshot.png,
headless true), and the outcome is reported only by printing either the
success line or a single diagnostic line. -/
theorem c5_contract (env : Env) :
    (run env).retVal = none ∧
    (∀ u, Event.goto u ∈ (run env).trace → u = targetUrl) ∧
    (∀ sel t, Event.waitForSelector sel t ∈ (run env).trace →
      sel = readinessSelector ∧ t = none) ∧
    (∀ n, Event.sleep n ∈ (run env).trace → n = settleDelaySeconds) ∧
    (∀ p, Event.screenshot p ∈ (run env).trace → p = outputPath) ∧
    (∀ b, Event.launch b ∈ (run env).trace → b = headlessFlag) ∧
    ((run env).prints = [] ∨ (run env).prints = ["Screenshot taken"] ∨
      ∃ m, (run env).prints = ["Error: " ++ m]) := by
  obtain ⟨l, np, g, w, s, sc, c⟩ := env
  refine ⟨?_, ?_, ?_, ?_, ?_, ?_, ?_⟩
  · cases l <;> cases np <;> rfl
  · intro u h
    have hc := mem_canonical _ _ h
    simpa [canonicalEvents] using hc
  · intro sel t h
    have hc := mem_canonical _ _ h
    simpa [canonicalEvents, readinessTimeoutArg] using hc
  · intro n h
    have hc := mem_canonical _ _ h
    simpa [canonicalEvents] using hc
  · intro p h
    have hc := mem_canonical _ _ h
    simpa [canonicalEvents] using hc
  · intro b h
    have hc := mem_canonical _ _ h
    simpa [canonicalEvents] using hc
  · cases l with
    | some f => exact Or.inl rfl
    | none =>
      cases np with
      | some f => exact Or.inl rfl
      | none =>
        rcases hcf : caughtFault ⟨none, none, g, w, s, sc, c⟩ with _ | f
        · exact Or.inr (Or.inl (by simp [run, tryPrints, hcf]))
        · exact Or.inr (Or.inr ⟨f.msg, by simp [run, tryPrints, hcf]⟩)

/-- C5 witness: the amended contract evaluated at the all-success run, each
hard-coded constant instantiated and each membership discharged. -/
theorem c5_contract_witness :
    (run envAllOk).retVal = none ∧
    "http://localhost:5173" = targetUrl ∧
    ("canvas" = readinessSelector ∧ (none : Option Nat) = none) ∧
    2 = settleDelaySeconds ∧
    "verification/screenshot.png" = outputPath ∧
    true = headlessFlag :=
  ⟨(c5_contract envAllOk).1,
    (c5_contract envAllOk).2.1 _ (by decide),
    (c5_contract envAllOk).2.2.1 _ _ (by decide),
    (c5_contract envAllOk).2.2.2.1 _ (by decide),
    (c5_contract envAllOk).2.2.2.2.1 _ (by decide),
    (c5_contract envAllOk).2.2.2.2.2.1 _ (by decide)⟩

/-- C6 counterexample: the source passes no timeout argument to the readiness
wait, so the driver applies its own documented default of 30000 ms, not
10000 ms: on a run whose selector never matches, the wait event carries no
timeout argument and the effective bound is 30000 ms. -/
theorem c6_timeout_counterexample :
    Event.waitForSelector readinessSelector none ∈ (run envWaitTimeout).trace ∧
    effectiveWaitTimeoutMs readinessTimeoutArg = 30000 ∧
    ¬ effectiveWaitTimeoutMs readinessTimeoutArg = 10000 ∧
    (run envWaitTimeout).prints = ["Error: " ++ "Timeout 30000ms exceeded"] :=
  ⟨by decide, rfl, by decide, rfl⟩

/-- C6 (amended): whenever launch, page creation and navigation succeed, the
readiness wait is attempted with no timeout argument, so the bound in
effect is the driver default — 30000 ms for Playwright, not a configured
10000 ms. -/
theorem c6_timeout (env : Env) (hl : env.launch = none) (hnp : env.newPage = none)
    (hg : env.goto = none) :
    Event.waitForSelector readinessSelector readinessTimeoutArg ∈ (run env).trace ∧
    readinessTimeoutArg = none ∧
    effectiveWaitTimeoutMs readinessTimeoutArg = playwrightDefaultTimeoutMs ∧
    playwrightDefaultTimeoutMs = 30000 := by
  obtain ⟨l, np, g, w, s, sc, c⟩ := env
  replace hl : l = none := hl
  replace hnp : np = none := hnp
  replace hg : g = none := hg
  subst hl hnp hg
  refine ⟨?_, rfl, rfl, rfl⟩
  cases w <;> cases s <;> simp [run, tryEvents, readinessTimeoutArg]

/-- C6 witness: the amended statement at the run whose selector never
matches. -/
theorem c6_timeout_witness :
    Event.waitForSelector readinessSelector readinessTimeoutArg ∈
      (run envWaitTimeout).trace ∧
    readinessTimeoutArg = none ∧
    effectiveWaitTimeoutMs readinessTimeoutArg = playwrightDefaultTimeoutMs ∧
    playwrightDefaultTimeoutMs = 30000 :=
  c6_timeout envWaitTimeout rfl rfl rfl

/-- C7: after launch, page creation, navigation and the readiness wait all
succeed, the next operation is unconditionally a pure elapsed-time sleep of
2 seconds (2000 ms), and only after it does the screenshot capture follow. -/
theorem c7_settle (env : Env) (hl : env.launch = none) (hnp : env.newPage = none)
    (hg : env.goto = none) (hw : env.waitForSelector = none) :
    (run env).trace.take 5 =
      [Event.launch headlessFlag, Event.newPage, Event.goto targetUrl,
        Event.waitForSelector readinessSelector readinessTimeoutArg,
        Event.sleep settleDelaySeconds] ∧
    settleDelayMs = 2000 ∧
    (env.sleep = none → (run env).trace[5]? = some (Event.screenshot outputPath)) := by
  obtain ⟨l, np, g, w, s, sc, c⟩ := env
  replace hl : l = none := hl
  replace hnp : np = none := hnp
  replace hg : g = none := hg
  replace hw : w = none := hw
  subst hl hnp hg hw
  cases s with
  | some f => exact ⟨rfl, rfl, fun h => Option.noConfusion h⟩
  | none => exact ⟨rfl, rfl, fun _ => rfl⟩

/-- C7 witness: the settle-delay statement at the all-success run. -/
theorem c7_settle_witness :
    (run envAllOk).trace.take 5 =
      [Event.launch headlessFlag, Event.newPage, Event.goto targetUrl,
        Event.waitForSelector readinessSelector readinessTimeoutArg,
        Event.sleep settleDelaySeconds] ∧
    settleDelayMs = 2000 ∧
    (run envAllOk).trace[5]? = some (Event.screenshot outputPath) :=
  ⟨(c7_settle envAllOk rfl rfl rfl rfl).1,
    (c7_settle envAllOk rfl rfl rfl rfl).2.1,
    (c7_settle envAllOk rfl rfl rfl rfl).2.2 rfl⟩

lemma runFs_outputPath (fs : Fs) :
    runFs envAllOk fs outputPath = fs outputPath + 1 := by
  simp [runFs, run, tryEvents, tryPrints, caughtFault, readinessTimeoutArg,
    envAllOk, applyEvent, writeFile]

/-- C8: running `run` twice in succession against the same ready application
(an environment where every operation succeeds) succeeds both times and
overwrites the artifact both times — the write count at `outputPath` rises
by one per run from any starting filesystem, including one where the
artifact already exists, so the second run does not fail merely because
the file is already there. -/
theorem c8_idempotent (fs : Fs) (h : 0 < fs outputPath) :
    (run envAllOk).prints = ["Screenshot taken"] ∧
    runFs envAllOk fs outputPath = fs outputPath + 1 ∧
    runFs envAllOk (runFs envAllOk fs) outputPath = fs outputPath + 2 :=
  ⟨rfl, runFs_outputPath fs, by rw [runFs_outputPath, runFs_outputPath]⟩

/-- C8 witness: both runs from a filesystem that already holds the artifact. -/
theorem c8_idempotent_witness :
    0 < (fun _ : String => 1) outputPath ∧
    ((run envAllOk).prints = ["Screenshot taken"] ∧
      runFs envAllOk (fun _ => 1) outputPath = (fun _ : String => 1) outputPath + 1 ∧
      runFs envAllOk (runFs envAllOk (fun _ => 1)) outputPath =
        (fun _ : String => 1) outputPath + 2) :=
  ⟨Nat.one_pos, c8_idempotent (fun _ => 1) Nat.one_pos⟩

/-- C9 counterexample: even on a fully successful run the runner issues no
directory-creation operation at all — every event of the trace is something
other than a mkdir — so directory creation is not performed by the runner;
the screenshot call is the only step that touches the filesystem. -/
theorem c9_mkdir_counterexample :
    ((run envAllOk).trace.all fun e => ! isMkdir e) = true ∧
    Event.screenshot outputPath ∈ (run envAllOk).trace :=
  ⟨rfl, by decide⟩

/-- C9 (amended): the runner never creates directories itself — no execution
of `run` contains a directory-creation operation; persistence is delegated
wholly to the driver screenshot call (which is attempted whenever the
preceding steps succeed), so any creation of missing parent directories is
the driver's doing (Playwright creates them inside the screenshot call),
not the runner's. -/
theorem c9_mkdir (env : Env) :
    (∀ p, Event.mkdir p ∉ (run env).trace) ∧
    (env.launch = none → env.newPage = none → env.goto = none →
      env.waitForSelector = none → env.sleep = none →
      Event.screenshot outputPath ∈ (run env).trace) := by
  constructor
  · intro p h
    have hc := mem_canonical _ _ h
    simp [canonicalEvents] at hc
  · intro hl hnp hg hw hs
    obtain ⟨l, np, g, w, s, sc, c⟩ := env
    replace hl : l = none := hl
    replace hnp : np = none := hnp
    replace hg : g = none := hg
    replace hw : w = none := hw
    replace hs : s = none := hs
    subst hl hnp hg hw hs
    simp [run, tryEvents, readinessTimeoutArg]

/-- C9 witness: at the all-success run, no mkdir occurs and the capture does. -/
theorem c9_mkdir_witness :
    Event.mkdir "verification" ∉ (run envAllOk).trace ∧
    Event.screenshot outputPath ∈ (run envAllOk).trace :=
  ⟨(c9_mkdir envAllOk).1 "verification",
    (c9_mkdir envAllOk).2 rfl rfl rfl rfl rfl⟩

/-- C10: once the launch and page creation have succeeded, the success line
"Screenshot taken" is printed exactly when navigation, the readiness wait,
the settle sleep and the screenshot capture all succeed; and whenever one
of them fails, the single line printed is "Error: " followed by the
fault's message, and the success line is not printed. -/
theorem c10_messages (env : Env) (hl : env.launch = none)
    (hnp : env.newPage = none) :
    ((run env).prints = ["Screenshot taken"] ↔
      env.goto = none ∧ env.waitForSelector = none ∧ env.sleep = none ∧
        env.screenshot = none) ∧
    (∀ f, caughtFault env = some f →
      (run env).prints = ["Error: " ++ f.msg] ∧
        (run env).prints ≠ ["Screenshot taken"]) := by
  obtain ⟨l, np, g, w, s, sc, c⟩ := env
  replace hl : l = none := hl
  replace hnp : np = none := hnp
  subst hl hnp
  constructor
  · cases g <;> cases w <;> cases s <;> cases sc <;>
      simp [run, tryPrints, caughtFault, error_ne_success]
  · intro f hf
    have hp : (run ⟨none, none, g, w, s, sc, c⟩).prints = ["Error: " ++ f.msg] := by
      simp [run, tryPrints, hf]
    exact ⟨hp, by rw [hp]; simp [error_ne_success]⟩

/-- C10 witness: at the navigation-failure run, the diagnostic line is printed
and the success line is not. -/
theorem c10_messages_witness :
    (run envGotoFail).prints = ["Error: " ++ "net::ERR_CONNECTION_REFUSED"] ∧
    (run envGotoFail).prints ≠ ["Screenshot taken"] :=
  (c10_messages envGotoFail rfl rfl).2 ⟨"net::ERR_CONNECTION_REFUSED"⟩ rfl

end VerifyStickman
